import Mathlib

set_option maxHeartbeats 1600000
set_option maxRecDepth 4096

/-! Formal model of the spatialdata core element schemas (`models.py`):
transformation attachment (`_parse_transformations`), the raster schema
(`RasterSchema.parse` / `validate` and the four kind classes), the shapes
schema (`ShapesModel`), the points schema (`PointsModel`), and the
annotation-table region linkage (`TableModel.parse`).

Each Python function is embedded as an executable Lean function over explicit
data models.  Exceptions become `Except`; in-place mutation of the annotation
table becomes explicit state passing (the parse functions return the
post-call state of the table next to the outcome).  External collaborator
calls (geometry engine, labeled-array constructor) that are not part of the
repository are modelled from the spec and marked as such in their doc
comments. -/

/-! ## Coordinate systems and transformations -/

/-- Transformation variants of the transformation model (spec section 3):
identity, scale, affine, sequence.  The numeric payloads are irrelevant to
the schema-level claims and are kept as integers. -/
inductive Transformation where
  | identity
  | scale (factors : List Int)
  | affine (matrix : List (List Int))
  | sequence (ts : List Transformation)

/-- A mapping from coordinate-system name to transformation, the value stored
under the transform key of an element's metadata
(`MappingToCoordinateSystem_t` in `core_utils`). -/
abbrev MappingToCoordinateSystem := List (String × Transformation)

/-- Modelled from the spec: `DEFAULT_COORDINATE_SYSTEM` of
`spatialdata._core.core_utils` (not under src/); the spec fixes the default
mapping to the name "global" paired with identity. -/
def DEFAULT_COORDINATE_SYSTEM : String := "global"

/-- Error message raised by `_parse_transformations` when both the element
metadata and the argument carry transformations (models.py lines 92-95). -/
def errDualTransform : String :=
  "Transformations are both specified for the element and also passed as an argument to the parser. Please specify the transformations only once."

/-- Truthiness of an optional transformation mapping, mirroring the Python
test x is not None and len(x) > 0. -/
def mappingNonempty : Option MappingToCoordinateSystem → Bool
  | none => false
  | some m => !m.isEmpty

/-- Embedding of `_parse_transformations` (models.py lines 81-103).  The
element is represented by its current transform metadata
(`_get_transformations`, modelled from the spec as reading the transform
attribute: absent metadata is `none`); the returned mapping is the value that
`_set_transformations` stores back on the element.  The call to
`_validate_mapping_to_coordinate_system_type` is a type check made redundant
by this embedding's types. -/
def _parse_transformations (transformations_in_element transformations : Option MappingToCoordinateSystem) :
    Except String MappingToCoordinateSystem :=
  if mappingNonempty transformations_in_element && mappingNonempty transformations then
    Except.error errDualTransform
  else if mappingNonempty transformations_in_element then
    Except.ok (transformations_in_element.getD [])
  else if mappingNonempty transformations then
    Except.ok (transformations.getD [])
  else
    Except.ok [(DEFAULT_COORDINATE_SYSTEM, Transformation.identity)]

/-! ## Raster schema -/

/-- Axis name constants from `core_utils` (modelled from the spec: the
canonical axis names are c, z, y, x). -/
def C : String := "c"

/-- Axis name z. -/
def Z : String := "z"

/-- Axis name y. -/
def Y : String := "y"

/-- Axis name x. -/
def X : String := "x"

/-- An unlabeled n-dimensional array (numpy / dask array): a shape together
with element access by multi-index.  Out-of-range indices are irrelevant to
the claims; `get` is total like a mathematical function. -/
structure NdData where
  shape : List Nat
  get : List Nat → Int

/-- A dimension-labeled array (xarray DataArray / SpatialImage): dimension
names, the backing array, and the transform attribute. -/
structure LArr where
  dims : List String
  data : NdData
  transform : Option MappingToCoordinateSystem

/-- Canonical dims of Labels2DModel (models.py line 245). -/
def Labels2DModel.dims : List String := [Y, X]

/-- Canonical dims of Labels3DModel (models.py line 260). -/
def Labels3DModel.dims : List String := [Z, Y, X]

/-- Canonical dims of Image2DModel (models.py line 275). -/
def Image2DModel.dims : List String := [C, Y, X]

/-- Canonical dims of Image3DModel (models.py line 291). -/
def Image3DModel.dims : List String := [C, Z, Y, X]

/-- The four supported raster kinds, by their canonical dims. -/
def rasterKindDims : List (List String) :=
  [Labels2DModel.dims, Labels3DModel.dims, Image2DModel.dims, Image3DModel.dims]

/-- Emptiness of the symmetric set difference, the Python
set(a).symmetric_difference(b) being falsy: the two lists contain the same
elements. -/
def setEqDims (a b : List String) : Bool :=
  a.all (fun d => decide (d ∈ b)) && b.all (fun d => decide (d ∈ a))

/-- Numpy/dask transpose semantics: given axes, output axis k is input axis
axes k, so the output shape at k is the input shape at axes k and the input
index at m is the output index at the position of m in axes.  Transposing
fails (numpy AxisError / ValueError) unless axes is a permutation of
range(ndim). -/
def npTranspose (a : NdData) (axes : List Nat) : Option NdData :=
  if axes.Perm (List.range a.shape.length) then
    some { shape := axes.map fun i => a.shape.getD i 0,
           get := fun ix => a.get ((List.range a.shape.length).map fun m => ix.getD (axes.indexOf m) 0) }
  else none

/-- Error raised when `dims` is passed and disagrees with the dims found in
the data (models.py lines 151-153). -/
def errDimsMismatchData : String :=
  "dims does not match data.dims, please specify the dims only once."

/-- Error raised when the resolved dims are not set-equal to the schema dims
(models.py lines 160 and 171). -/
def errWrongDims : String := "Wrong dims: expected the dims of the schema."

/-- Error raised when the transpose to canonical order fails
(models.py line 187). -/
def errCannotTranspose : String :=
  "Cannot transpose arrays to match dims. Try to reshape data or dims."

/-- Modelled from the spec: the external collaborator `to_spatial_image`
(spec section 6, pyramid/array engine) wraps an array with the given
dimension labels, preserving attached attributes, and fails when the rank of
the array does not match the number of labels. -/
def toSpatialImage (d : NdData) (dims : List String) (tin : Option MappingToCoordinateSystem) :
    Except String LArr :=
  if d.shape.length = dims.length then
    Except.ok { dims := dims, data := d, transform := tin }
  else
    Except.error "to_spatial_image: rank does not match the dimension labels."

/-- Common tail of `RasterSchema.parse` (models.py lines 176-207, with
`scale_factors = None` so no multiscale pyramid is built): conditionally
transpose to the canonical order, wrap via `to_spatial_image`, then attach
transformations via `_parse_transformations`.  `dims` is the resolved dims
variable of the Python code and `effDims` the dimension order of the backing
array (`data.dims` for labeled input, where transposition is by name; equal
to `dims` for raw input, where `_reindex` is `dims.index`); `tin` is the
transform metadata already on the element. -/
def parseResolved (canonical dims effDims : List String) (d : NdData)
    (tin transformations : Option MappingToCoordinateSystem) : Except String LArr :=
  let step1 : Except String NdData :=
    if dims ≠ canonical then
      match npTranspose d (canonical.map fun dm => effDims.indexOf dm) with
      | some d2 => Except.ok d2
      | none => Except.error errCannotTranspose
    else Except.ok d
  match step1 with
  | Except.error e => Except.error e
  | Except.ok dat2 =>
    match toSpatialImage dat2 canonical tin with
    | Except.error e => Except.error e
    | Except.ok si =>
      match _parse_transformations si.transform transformations with
      | Except.error e => Except.error e
      | Except.ok m => Except.ok { si with transform := some m }

/-- Input accepted by `RasterSchema.parse`: either a dimension-labeled array
(DataArray / SpatialImage) or a raw array (numpy / dask). -/
inductive RasterInput where
  | labeled (a : LArr)
  | raw (d : NdData)

/-- Embedding of `RasterSchema.parse` (models.py lines 108-207) for a kind
with canonical dims `canonical`, with `scale_factors = None` and no `name`
keyword.  The numpy-to-dask conversion of the backing storage is a
representation change below this model's abstraction. -/
def RasterSchema.parse (canonical : List String) (input : RasterInput)
    (dims? : Option (List String)) (transformations : Option MappingToCoordinateSystem) :
    Except String LArr :=
  match input with
  | RasterInput.labeled a =>
    match dims? with
    | some ds =>
      if setEqDims ds a.dims = false then Except.error errDimsMismatchData
      else if setEqDims ds canonical = false then Except.error errWrongDims
      else parseResolved canonical ds a.dims a.data a.transform transformations
    | none =>
      if setEqDims a.dims canonical = false then Except.error errWrongDims
      else parseResolved canonical a.dims a.dims a.data a.transform transformations
  | RasterInput.raw d =>
    match dims? with
    | none => parseResolved canonical canonical canonical d none transformations
    | some ds =>
      if setEqDims ds canonical = false then Except.error errWrongDims
      else parseResolved canonical ds ds d none transformations

/-- Embedding of the single-scale `validate` (the `DataArraySchema` checks
configured in the kind classes, models.py lines 227-229 and 244-301): the
dims tuple must equal the canonical dims exactly and the transform attribute
must be present.  The array-type check (dask array) is a representation
check below this model's abstraction. -/
def RasterSchema.validateSingle (canonical : List String) (a : LArr) : Except String Unit :=
  if a.dims ≠ canonical then Except.error errWrongDims
  else if a.transform.isNone then Except.error "transform attribute missing."
  else Except.ok ()

/-- One level of a multiscale pyramid: its key in the datatree and its data
variables in order (name, array). -/
structure MSLevel where
  key : String
  vars : List (String × LArr)

/-- Error for a multiscale level key that is not the expected scale name
(models.py line 235). -/
def errWrongKey : String := "Wrong key for multiscale data."

/-- Error for disagreeing data-variable names across levels
(models.py line 238). -/
def errWrongName : String := "Wrong name for datatree."

/-- Model of a Python IndexError from positional access to a first element
that does not exist. -/
def errIndexOutOfRange : String := "IndexError: list index out of range"

/-- Model of a Python KeyError from subscripting a level with a data-variable
name it does not have. -/
def errKeyMissing : String := "KeyError: data variable not found in level"

/-- The keys check of multiscale `validate` (models.py lines 233-235): level
i must be named scale i, in order. -/
def checkScaleKeys : Nat → List MSLevel → Except String Unit
  | _, [] => Except.ok ()
  | i, l :: ls =>
    if l.key = "scale" ++ toString i then checkScaleKeys (i + 1) ls
    else Except.error errWrongKey

/-- The first data-variable name of every level, as gathered by the set
comprehension in models.py line 236; a level with no data variable makes the
positional access raise. -/
def firstVarNames : List MSLevel → Except String (List String)
  | [] => Except.ok []
  | l :: ls =>
    match l.vars.head? with
    | none => Except.error errIndexOutOfRange
    | some p =>
      match firstVarNames ls with
      | Except.error e => Except.error e
      | Except.ok ns => Except.ok (p.1 :: ns)

/-- The per-level loop of multiscale `validate` (models.py lines 240-241):
validate the data variable named `n` of every level against the single-scale
schema. -/
def validateLevels (canonical : List String) (n : String) : List MSLevel → Except String Unit
  | [] => Except.ok ()
  | l :: ls =>
    match l.vars.lookup n with
    | none => Except.error errKeyMissing
    | some a =>
      match RasterSchema.validateSingle canonical a with
      | Except.error e => Except.error e
      | Except.ok _ => validateLevels canonical n ls

/-- Embedding of the multiscale `validate` register (models.py lines
231-241): check level keys, gather the first data-variable name of each
level into a set, reject if that set has more than one element, then
validate the variable of that name in every level. -/
def RasterSchema.validateMultiscale (canonical : List String) (ms : List MSLevel) :
    Except String Unit :=
  match checkScaleKeys 0 ms with
  | Except.error e => Except.error e
  | Except.ok _ =>
    match firstVarNames ms with
    | Except.error e => Except.error e
    | Except.ok names =>
      let nameSet := names.dedup
      if 1 < nameSet.length then Except.error errWrongName
      else
        match nameSet.head? with
        | none => Except.error errIndexOutOfRange
        | some n => validateLevels canonical n ms

/-- A raster element: single-scale image or multiscale pyramid, the two
registers of the `validate` singledispatch. -/
inductive RasterElement where
  | single (a : LArr)
  | multi (ms : List MSLevel)

/-- Embedding of `RasterSchema.validate` (models.py lines 209-241),
dispatching on the concrete element kind. -/
def RasterSchema.validate (canonical : List String) : RasterElement → Except String Unit
  | RasterElement.single a => RasterSchema.validateSingle canonical a
  | RasterElement.multi ms => RasterSchema.validateMultiscale canonical ms

/-! ## Shapes schema -/

/-- Geometry kinds a GeoDataFrame row can hold.  `other` stands for any
shapely geometry that is not a Point, Polygon or MultiPolygon (for example a
LineString). -/
inductive Geom where
  | point
  | polygon
  | multipolygon
  | other
  deriving DecidableEq, Repr

/-- Error taxonomy of the shapes schema: Python KeyError, ValueError, and
the IndexError arising from positional access to the first row. -/
inductive ShapesErr where
  | keyError (msg : String)
  | valueError (msg : String)
  | indexError
  deriving Repr

/-- A geopandas GeoDataFrame as the shapes schema sees it: the geometry
column (absent when the frame has no such column), the radius column, and
the transform entry of the frame attributes.  Radius values are opaque. -/
structure GeoDF where
  geometry? : Option (List Geom)
  radius? : Option (List Int)
  transform : Option MappingToCoordinateSystem

/-- Embedding of `ShapesModel.validate` (models.py lines 313-328): geometry
column present, first row of a supported kind, radius column present when
the first row is a point, transform attribute present.  The GeoSeries type
check on the column is a representation check below this model's
abstraction. -/
def ShapesModel.validate (data : GeoDF) : Except ShapesErr Unit :=
  match data.geometry? with
  | none => Except.error (ShapesErr.keyError "GeoDataFrame must have a column named geometry.")
  | some geoms =>
    match geoms.head? with
    | none => Except.error ShapesErr.indexError
    | some g0 =>
      if g0 = Geom.other then
        Except.error (ShapesErr.valueError "geometry column can only contain Point, Polygon or MultiPolygon shapes.")
      else if g0 = Geom.point ∧ data.radius?.isNone then
        Except.error (ShapesErr.valueError "Column radius not found.")
      else if data.transform.isNone then
        Except.error (ShapesErr.valueError "GeoDataFrame does not contain transform.")
      else Except.ok ()

/-- Modelled from the spec: the external geometry engine
`shapely.from_ragged_array` (spec section 6) reconstructs `nrows` geometries
of the kind selected by the tag (0 point, 3 polygon, 6 multipolygon); an
unsupported tag makes the GeometryType constructor raise. -/
def from_ragged_array (tag : Nat) (nrows : Nat) : Option (List Geom) :=
  if tag = 0 then some (List.replicate nrows Geom.point)
  else if tag = 3 then some (List.replicate nrows Geom.polygon)
  else if tag = 6 then some (List.replicate nrows Geom.multipolygon)
  else none

/-- Error raised when point shapes are parsed without a radius
(models.py lines 386 and 412). -/
def errRadiusRequired : ShapesErr :=
  ShapesErr.valueError "If geometry is Circles, radius must be provided."

/-- Error raised by the pandas column assignment when the radius array does
not have one entry per row. -/
def errRadiusLength : ShapesErr :=
  ShapesErr.valueError "Length of values does not match length of index."

/-- Lift the transform-attachment error into the shapes error taxonomy. -/
def liftTransform (x : Except String MappingToCoordinateSystem) :
    Except ShapesErr MappingToCoordinateSystem :=
  match x with
  | Except.error e => Except.error (ShapesErr.valueError e)
  | Except.ok m => Except.ok m

/-- Embedding of the ragged-array register of `ShapesModel.parse`
(models.py lines 371-390): reconstruct geometries from the tag, require a
radius for points, attach transformations, validate.  The coordinate payload
of the ragged array is summarised by its row count. -/
def ShapesModel.parseRagged (tag : Nat) (nrows : Nat) (radius : Option (List Int))
    (transformations : Option MappingToCoordinateSystem) : Except ShapesErr GeoDF :=
  match from_ragged_array tag nrows with
  | none => Except.error (ShapesErr.valueError "GeometryType: invalid geometry type tag.")
  | some geoms =>
    let geo_df : GeoDF := { geometry? := some geoms, radius? := none, transform := none }
    let step1 : Except ShapesErr GeoDF :=
      if tag = 0 then
        match radius with
        | none => Except.error errRadiusRequired
        | some r =>
          if r.length = nrows then Except.ok { geo_df with radius? := some r }
          else Except.error errRadiusLength
      else Except.ok geo_df
    match step1 with
    | Except.error e => Except.error e
    | Except.ok df =>
      match liftTransform (_parse_transformations df.transform transformations) with
      | Except.error e => Except.error e
      | Except.ok m =>
        let df2 := { df with transform := some m }
        match ShapesModel.validate df2 with
        | Except.error e => Except.error e
        | Except.ok _ => Except.ok df2

/-- Result of the external GeoJSON reader `from_geojson` (modelled from the
spec, section 6 geometry engine): either a geometry collection or a single
geometry. -/
inductive GeoJSONContent where
  | collection (geoms : List Geom)
  | single (g : Geom)

/-- Embedding of the file-path register of `ShapesModel.parse`
(models.py lines 392-416): the parsed file must contain a collection; a
radius is required when the first geometry is a point (positional access
that raises on an empty collection); attach transformations, validate. -/
def ShapesModel.parseGeoJSON (gc : GeoJSONContent) (radius : Option (List Int))
    (transformations : Option MappingToCoordinateSystem) : Except ShapesErr GeoDF :=
  match gc with
  | GeoJSONContent.single _ =>
    Except.error (ShapesErr.valueError "File does not contain a GeometryCollection.")
  | GeoJSONContent.collection geoms =>
    match geoms.head? with
    | none => Except.error ShapesErr.indexError
    | some g0 =>
      let geo_df : GeoDF := { geometry? := some geoms, radius? := none, transform := none }
      let step1 : Except ShapesErr GeoDF :=
        if g0 = Geom.point then
          match radius with
          | none => Except.error errRadiusRequired
          | some r =>
            if r.length = geoms.length then Except.ok { geo_df with radius? := some r }
            else Except.error errRadiusLength
        else Except.ok geo_df
      match step1 with
      | Except.error e => Except.error e
      | Except.ok df =>
        match liftTransform (_parse_transformations df.transform transformations) with
        | Except.error e => Except.error e
        | Except.ok m =>
          let df2 := { df with transform := some m }
          match ShapesModel.validate df2 with
          | Except.error e => Except.error e
          | Except.ok _ => Except.ok df2

/-- Embedding of the GeoDataFrame register of `ShapesModel.parse`
(models.py lines 418-432): geometry column required, radius column required
when the first geometry is a point (positional access raising on an empty
frame), attach transformations, validate. -/
def ShapesModel.parseGeoDataFrame (data : GeoDF)
    (transformations : Option MappingToCoordinateSystem) : Except ShapesErr GeoDF :=
  match data.geometry? with
  | none => Except.error (ShapesErr.valueError "geometry column not found in GeoDataFrame.")
  | some geoms =>
    match geoms.head? with
    | none => Except.error ShapesErr.indexError
    | some g0 =>
      if g0 = Geom.point ∧ data.radius?.isNone then
        Except.error (ShapesErr.valueError "Column radius not found.")
      else
        match liftTransform (_parse_transformations data.transform transformations) with
        | Except.error e => Except.error e
        | Except.ok m =>
          let df2 := { data with transform := some m }
          match ShapesModel.validate df2 with
          | Except.error e => Except.error e
          | Except.ok _ => Except.ok df2

/-- State-passing embedding of the GeoDataFrame register of
`ShapesModel.parse` (models.py lines 418-432).  The Python function operates
on the caller's frame in place: `_parse_transformations` (line 430) attaches
the resolved transform metadata to it before `validate` (line 431) can
raise.  The pair returned here is (outcome, post-call state of the caller's
frame), so a validate failure leaves the attached metadata visible in the
second component; the outcome component agrees with
`ShapesModel.parseGeoDataFrame` (see `parseGeoDataFrameST_fst`). -/
def ShapesModel.parseGeoDataFrameST (data : GeoDF)
    (transformations : Option MappingToCoordinateSystem) :
    Except ShapesErr GeoDF × GeoDF :=
  match data.geometry? with
  | none =>
    (Except.error (ShapesErr.valueError "geometry column not found in GeoDataFrame."), data)
  | some geoms =>
    match geoms.head? with
    | none => (Except.error ShapesErr.indexError, data)
    | some g0 =>
      if g0 = Geom.point ∧ data.radius?.isNone then
        (Except.error (ShapesErr.valueError "Column radius not found."), data)
      else
        match liftTransform (_parse_transformations data.transform transformations) with
        | Except.error e => (Except.error e, data)
        | Except.ok m =>
          let df2 := { data with transform := some m }
          match ShapesModel.validate df2 with
          | Except.error e => (Except.error e, df2)
          | Except.ok _ => (Except.ok df2, df2)

/-! ## Points schema -/

/-- Column dtypes the points schema distinguishes. -/
inductive Dtype where
  | float32
  | float64
  | int64
  | category
  | strObject
  deriving DecidableEq, Repr

/-- The spatialdata attrs block of a points table: the recorded feature and
instance key column names. -/
structure PointsAttrs where
  feature_key : Option String := none
  instance_key : Option String := none
  deriving DecidableEq, Repr

/-- A dask dataframe of points as the schema sees it: named, typed columns,
the optional spatialdata attrs block, and the transform entry of the table
attributes. -/
structure PointsFrame where
  columns : List (String × Dtype)
  spatialdata_attrs : Option PointsAttrs
  transform : Option MappingToCoordinateSystem

/-- Dtypes accepted for coordinate columns (models.py line 446). -/
def axisDtypeOk : Dtype → Bool
  | Dtype.float32 => true
  | Dtype.float64 => true
  | Dtype.int64 => true
  | _ => false

/-- Embedding of `PointsModel.validate` (models.py lines 442-459): assert
coordinate columns are float32/float64/int64 and require the transform
attribute.  The feature/instance categorical advisories are non-fatal log
lines and have no effect in the model. -/
def PointsModel.validate (data : PointsFrame) : Except String Unit :=
  if ([X, Y, Z].all fun ax =>
        match data.columns.lookup ax with
        | some dt => axisDtypeOk dt
        | none => true) = false then
    Except.error "AssertionError: coordinate column dtype"
  else if data.transform.isNone then
    Except.error "dask dataframe attrs does not contain transform."
  else Except.ok ()

/-- Embedding of `PointsModel._add_metadata_and_validate` (models.py lines
578-599), the shared tail both `parse` registers converge to: record the
feature/instance key names (asserting the columns exist), attach
transformations, validate. -/
def PointsModel._add_metadata_and_validate (data : PointsFrame)
    (feature_key instance_key : Option String)
    (transformations : Option MappingToCoordinateSystem) : Except String PointsFrame :=
  let d0 :=
    if feature_key.isSome || instance_key.isSome then
      { data with spatialdata_attrs := some {} }
    else data
  let step1 : Except String PointsFrame :=
    match feature_key with
    | none => Except.ok d0
    | some k =>
      if (d0.columns.lookup k).isSome then
        Except.ok { d0 with
          spatialdata_attrs := some { d0.spatialdata_attrs.getD {} with feature_key := some k } }
      else Except.error "AssertionError: feature_key not in columns"
  match step1 with
  | Except.error e => Except.error e
  | Except.ok d1 =>
    let step2 : Except String PointsFrame :=
      match instance_key with
      | none => Except.ok d1
      | some k =>
        if (d1.columns.lookup k).isSome then
          Except.ok { d1 with
            spatialdata_attrs := some { d1.spatialdata_attrs.getD {} with instance_key := some k } }
        else Except.error "AssertionError: instance_key not in columns"
    match step2 with
    | Except.error e => Except.error e
    | Except.ok d2 =>
      match _parse_transformations d2.transform transformations with
      | Except.error e => Except.error e
      | Except.ok m =>
        let d3 := { d2 with transform := some m }
        match PointsModel.validate d3 with
        | Except.error e => Except.error e
        | Except.ok _ => Except.ok d3

/-! ## Table schema -/

/-- The region value of the table linkage: a single region name or a list of
region names (a Python str or list; any other non-None value is excluded by
this type, matching the final type error of models.py line 669). -/
inductive RegionVal where
  | str (s : String)
  | list (l : List String)
  deriving DecidableEq, Repr

/-- The spatialdata attrs block of an annotation table: the
(region, region_key, instance_key) triple. -/
structure TableAttrs where
  region : Option RegionVal
  region_key : Option String
  instance_key : Option String
  deriving DecidableEq, Repr

/-- One observation column of the annotation table: name, values, and
whether its dtype is categorical. -/
structure ObsColumn where
  name : String
  values : List String
  categorical : Bool
  deriving DecidableEq, Repr

/-- An AnnData table as `TableModel` sees it: observation columns and the
optional spatialdata attrs block in uns. -/
structure AnnDataT where
  obs : List ObsColumn
  uns : Option TableAttrs
  deriving DecidableEq, Repr

/-- Column lookup in obs (pandas raises KeyError when absent). -/
def findColumn : List ObsColumn → String → Option ObsColumn
  | [], _ => none
  | c :: cs, k => if c.name = k then some c else findColumn cs k

/-- The in-place categorical coercion of models.py line 664: the named
observation column becomes categorical, values unchanged. -/
def coerceCategorical (adata : AnnDataT) (k : String) : AnnDataT :=
  { adata with obs := adata.obs.map fun c =>
      if c.name = k then { c with categorical := true } else c }

/-- Error raised when linkage arguments are passed while the table already
has an attrs block (models.py lines 640-643). -/
def errDualSource : String :=
  "Either pass region, region_key and instance_key as arguments or have them in adata.uns."

/-- Error for region_key given next to a scalar region (models.py 652-654). -/
def errRegionKeyRedundant : String :=
  "If region is of type str, region_key must be None as it is redundant."

/-- Error for a missing instance_key (models.py lines 656 and 666; the str
branch reuses the List wording). -/
def errInstanceKeyRequired : String :=
  "instance_key must be provided if region is of type List."

/-- Error for a missing region_key next to a list region (models.py 659). -/
def errRegionKeyRequired : String :=
  "region_key must be provided if region is of type List."

/-- Error for region_key column values outside region (models.py 660-661). -/
def errRegionValuesMismatch : String :=
  "adata.obs region_key values do not match with region values."

/-- Model of the pandas KeyError when the region_key column is absent. -/
def errObsKeyError : String := "KeyError: region_key column not found in adata.obs"

/-- The successful tail of `TableModel.parse` (models.py lines 672-674): the
resolved triple is written into uns unconditionally and the table returned.
The pair is (outcome, post-call state of the table object). -/
def tableFinish (adata : AnnDataT) (region : Option RegionVal)
    (region_key instance_key : Option String) : Except String AnnDataT × AnnDataT :=
  let adata2 := { adata with
    uns := some { region := region, region_key := region_key, instance_key := instance_key } }
  (Except.ok adata2, adata2)

/-- The region state machine of `TableModel.parse` (models.py lines
650-674), applied to the resolved (region, region_key, instance_key)
triple.  The pair is (outcome, post-call state of the table object). -/
def tableRegionBranch (adata : AnnDataT) (region : Option RegionVal)
    (region_key instance_key : Option String) : Except String AnnDataT × AnnDataT :=
  match region with
  | some (RegionVal.str s) =>
    if region_key.isSome then (Except.error errRegionKeyRedundant, adata)
    else if instance_key.isNone then (Except.error errInstanceKeyRequired, adata)
    else tableFinish adata (some (RegionVal.str s)) region_key instance_key
  | some (RegionVal.list l) =>
    match region_key with
    | none => (Except.error errRegionKeyRequired, adata)
    | some rk =>
      match findColumn adata.obs rk with
      | none => (Except.error errObsKeyError, adata)
      | some col =>
        if (col.values.all fun v => decide (v ∈ l)) = false then
          (Except.error errRegionValuesMismatch, adata)
        else
          let adata2 := if col.categorical then adata else coerceCategorical adata rk
          if instance_key.isNone then (Except.error errInstanceKeyRequired, adata2)
          else tableFinish adata2 (some (RegionVal.list l)) (some rk) instance_key
  | none => tableFinish adata region region_key instance_key

/-- Embedding of `TableModel.parse` (models.py lines 629-674): reject dual
sources, resolve the triple from the arguments or from the attrs block, then
run the region state machine.  The result pair is (outcome, post-call state
of the caller's table): the Python function mutates adata in place, so the
categorical coercion of the region_key column is visible in the second
component even when a later check raises. -/
def TableModel.parse (adata : AnnDataT) (region : Option RegionVal)
    (region_key instance_key : Option String) : Except String AnnDataT × AnnDataT :=
  let n_args := (if region.isSome then 1 else 0) + (if region_key.isSome then 1 else 0) +
    (if instance_key.isSome then 1 else 0)
  if 0 < n_args ∧ adata.uns.isSome then (Except.error errDualSource, adata)
  else
    let triple :=
      match adata.uns with
      | some attr =>
        if n_args = 0 then (attr.region, attr.region_key, attr.instance_key)
        else (region, region_key, instance_key)
      | none => (region, region_key, instance_key)
    tableRegionBranch adata triple.1 triple.2.1 triple.2.2

/-! ## Helper lemmas -/

/-- A concrete non-empty transformation mapping used by witnesses. -/
def tExample : MappingToCoordinateSystem :=
  [(DEFAULT_COORDINATE_SYSTEM, Transformation.identity)]

theorem mappingNonempty_some {m : MappingToCoordinateSystem} (h : m ≠ []) :
    mappingNonempty (some m) = true := by
  cases m with
  | nil => exact absurd rfl h
  | cons a t => rfl

theorem parseTransformations_dual {tin targ : MappingToCoordinateSystem}
    (h1 : tin ≠ []) (h2 : targ ≠ []) :
    _parse_transformations (some tin) (some targ) = Except.error errDualTransform := by
  simp [_parse_transformations, mappingNonempty_some h1, mappingNonempty_some h2]

theorem parseTransformations_arg_none (tin : Option MappingToCoordinateSystem) :
    ∃ m, _parse_transformations tin none = Except.ok m := by
  cases tin with
  | none => exact ⟨_, rfl⟩
  | some t =>
    cases t with
    | nil => exact ⟨_, rfl⟩
    | cons a l => exact ⟨_, rfl⟩

theorem setEqDims_refl (l : List String) : setEqDims l l = true := by
  simp [setEqDims, List.all_eq_true]

/-! ## Claim C1 -/

/-- C1: for every element kind's parse entry point, an element that already
carries a non-empty transformation mapping combined with a non-empty
transformations argument makes the parse fail with the configuration
ValueError, never merging or silently choosing a side: the core
`_parse_transformations` raises, and the raster, shapes-GeoDataFrame and
points entry points (the entry points whose input element can carry
metadata) propagate that error.  TableModel.parse accepts no transformations
argument at all. -/
theorem parse_rejects_dual_transformation_sources
    (tin targ : MappingToCoordinateSystem) (h1 : tin ≠ []) (h2 : targ ≠ []) :
    _parse_transformations (some tin) (some targ) = Except.error errDualTransform
    ∧ (∀ (canonical : List String) (a : LArr), canonical ∈ rasterKindDims →
        a.dims = canonical → a.data.shape.length = canonical.length → a.transform = some tin →
        RasterSchema.parse canonical (RasterInput.labeled a) none (some targ) =
          Except.error errDualTransform)
    ∧ (∀ (data : GeoDF) (g0 : Geom) (rest : List Geom),
        data.geometry? = some (g0 :: rest) → (g0 = Geom.point → data.radius?.isSome = true) →
        data.transform = some tin →
        ShapesModel.parseGeoDataFrame data (some targ) =
          Except.error (ShapesErr.valueError errDualTransform))
    ∧ (∀ pf : PointsFrame, pf.transform = some tin →
        PointsModel._add_metadata_and_validate pf none none (some targ) =
          Except.error errDualTransform) := by
  have hdual := parseTransformations_dual h1 h2
  refine ⟨hdual, ?_, ?_, ?_⟩
  · intro canonical a _ hdims hrank htr
    simp [RasterSchema.parse, parseResolved, toSpatialImage, hdims, setEqDims_refl, hrank,
      htr, hdual]
  · intro data g0 rest hg hr htr
    by_cases hp : g0 = Geom.point
    · obtain ⟨r, hrad⟩ := Option.isSome_iff_exists.mp (hr hp)
      simp [ShapesModel.parseGeoDataFrame, hg, hrad, htr, liftTransform, hdual]
    · simp [ShapesModel.parseGeoDataFrame, hg, hp, htr, liftTransform, hdual]
  · intro pf htr
    simp [PointsModel._add_metadata_and_validate, htr, hdual]

/-- Witness for C1 at a concrete mapping. -/
theorem parse_rejects_dual_transformation_sources_witness :
    (tExample ≠ []
    ∧ (_parse_transformations (some tExample) (some tExample) = Except.error errDualTransform
    ∧ (∀ (canonical : List String) (a : LArr), canonical ∈ rasterKindDims →
        a.dims = canonical → a.data.shape.length = canonical.length → a.transform = some tExample →
        RasterSchema.parse canonical (RasterInput.labeled a) none (some tExample) =
          Except.error errDualTransform)
    ∧ (∀ (data : GeoDF) (g0 : Geom) (rest : List Geom),
        data.geometry? = some (g0 :: rest) → (g0 = Geom.point → data.radius?.isSome = true) →
        data.transform = some tExample →
        ShapesModel.parseGeoDataFrame data (some tExample) =
          Except.error (ShapesErr.valueError errDualTransform))
    ∧ (∀ pf : PointsFrame, pf.transform = some tExample →
        PointsModel._add_metadata_and_validate pf none none (some tExample) =
          Except.error errDualTransform))) :=
  ⟨by simp [tExample],
   parse_rejects_dual_transformation_sources tExample tExample (by simp [tExample])
     (by simp [tExample])⟩

/-! ## Claim C7 -/

/-- C7 counterexample: a first call attaches the mapping, but calling
`_parse_transformations` again passing the very mapping now stored in the
element metadata does not succeed idempotently: it raises the dual-source
ValueError. -/
theorem parseTransformations_reparse_counterexample :
    _parse_transformations none (some tExample) = Except.ok tExample
    ∧ _parse_transformations (some tExample) (some tExample) = Except.error errDualTransform :=
  ⟨rfl, rfl⟩

/-- C7 amended: after a mapping is attached, a repeated call is a no-op only
when the transformations argument is absent or empty (the stored mapping
wins and is returned unchanged); passing any non-empty mapping — even the
very mapping already stored — raises the dual-source ValueError. -/
theorem parseTransformations_second_call_contract
    (m m2 : MappingToCoordinateSystem) (h : m ≠ []) (h2 : m2 ≠ []) :
    _parse_transformations (some m) none = Except.ok m
    ∧ _parse_transformations (some m) (some []) = Except.ok m
    ∧ _parse_transformations (some m) (some m2) = Except.error errDualTransform := by
  refine ⟨?_, ?_, parseTransformations_dual h h2⟩
  · simp [_parse_transformations, mappingNonempty_some h,
      show mappingNonempty none = false from rfl]
  · simp [_parse_transformations, mappingNonempty_some h,
      show mappingNonempty (some []) = false from rfl]

/-- Witness for C7 at a concrete mapping. -/
theorem parseTransformations_second_call_contract_witness :
    (tExample ≠ []
    ∧ (_parse_transformations (some tExample) none = Except.ok tExample
    ∧ _parse_transformations (some tExample) (some []) = Except.ok tExample
    ∧ _parse_transformations (some tExample) (some tExample) = Except.error errDualTransform)) :=
  ⟨by simp [tExample],
   parseTransformations_second_call_contract tExample tExample (by simp [tExample])
     (by simp [tExample])⟩

/-! ## Claim C2 -/

theorem setEqDims_of_perm {l1 l2 : List String} (h : l1.Perm l2) : setEqDims l1 l2 = true := by
  simp only [setEqDims, Bool.and_eq_true, List.all_eq_true, decide_eq_true_eq]
  exact ⟨fun a ha => h.mem_iff.mp ha, fun a ha => h.mem_iff.mpr ha⟩

theorem map_indexOf_self {α : Type} [DecidableEq α] :
    ∀ l : List α, l.Nodup → (l.map fun x => l.indexOf x) = List.range l.length
  | [], _ => rfl
  | a :: l, h => by
    have ha : a ∉ l := (List.nodup_cons.mp h).1
    have hl : l.Nodup := (List.nodup_cons.mp h).2
    have hstep : ∀ x ∈ l, (a :: l).indexOf x = l.indexOf x + 1 := by
      intro x hx
      exact List.indexOf_cons_ne l (fun e => ha (by rw [e]; exact hx))
    calc (a :: l).map (fun x => (a :: l).indexOf x)
        = (a :: l).indexOf a :: l.map (fun x => (a :: l).indexOf x) := by simp
      _ = 0 :: l.map (fun x => l.indexOf x + 1) := by
          rw [List.indexOf_cons_self]
          exact congrArg _ (List.map_congr_left hstep)
      _ = 0 :: (l.map fun x => l.indexOf x).map (· + 1) := by rw [List.map_map]; rfl
      _ = 0 :: (List.range l.length).map (· + 1) := by rw [map_indexOf_self l hl]
      _ = List.range (a :: l).length := by
          simp [List.range_succ_eq_map, Nat.succ_eq_add_one]

theorem map_getD_indexOf {α β : Type} [DecidableEq α] (dflt : β) :
    ∀ (l : List α) (s : List β), l.Nodup → s.length = l.length →
      (l.map fun x => s.getD (l.indexOf x) dflt) = s
  | [], [], _, _ => rfl
  | [], b :: s, _, hlen => by simp at hlen
  | a :: l, [], _, hlen => by simp at hlen
  | a :: l, b :: s, h, hlen => by
    have ha : a ∉ l := (List.nodup_cons.mp h).1
    have hl : l.Nodup := (List.nodup_cons.mp h).2
    have hlen2 : s.length = l.length := by simpa using hlen
    have hstep : ∀ x ∈ l, (b :: s).getD ((a :: l).indexOf x) dflt = s.getD (l.indexOf x) dflt := by
      intro x hx
      rw [List.indexOf_cons_ne l (fun e => ha (by rw [e]; exact hx))]
      rfl
    simp only [List.map_cons, List.indexOf_cons_self, List.getD_cons_zero]
    rw [List.map_congr_left hstep]
    exact congrArg _ (map_getD_indexOf dflt l s hl hlen2)

theorem axes_perm {dims canonical : List String} (hperm : dims.Perm canonical)
    (hnd : dims.Nodup) :
    (canonical.map fun dm => dims.indexOf dm).Perm (List.range dims.length) := by
  have h1 : (canonical.map fun dm => dims.indexOf dm).Perm
      (dims.map fun dm => dims.indexOf dm) := (hperm.symm).map _
  rw [map_indexOf_self dims hnd] at h1
  exact h1

theorem parseResolved_perm (canonical dims : List String) (d : NdData)
    (tin : Option MappingToCoordinateSystem)
    (hnd : canonical.Nodup) (hperm : dims.Perm canonical)
    (hrank : d.shape.length = dims.length) :
    ∃ out : LArr,
      parseResolved canonical dims dims d tin none = Except.ok out
      ∧ out.dims = canonical
      ∧ out.data.shape = canonical.map (fun dm => d.shape.getD (dims.indexOf dm) 0)
      ∧ RasterSchema.validate canonical (RasterElement.single out) = Except.ok () := by
  have hdnd : dims.Nodup := (List.Perm.nodup_iff hperm).mpr hnd
  obtain ⟨m, hm⟩ := parseTransformations_arg_none tin
  by_cases hd : dims = canonical
  · subst hd
    have hshape : (dims.map fun dm => d.shape.getD (dims.indexOf dm) 0) = d.shape :=
      map_getD_indexOf 0 dims d.shape hdnd hrank
    refine ⟨{ dims := dims, data := d, transform := some m }, ?_, rfl, hshape.symm, ?_⟩
    · simp [parseResolved, toSpatialImage, hrank, hm]
    · simp [RasterSchema.validate, RasterSchema.validateSingle]
  · have haxes : (canonical.map fun dm => dims.indexOf dm).Perm
        (List.range d.shape.length) := by
      rw [hrank]; exact axes_perm hperm hdnd
    have htrans : npTranspose d (canonical.map fun dm => dims.indexOf dm) =
        some { shape := (canonical.map fun dm => dims.indexOf dm).map fun i => d.shape.getD i 0,
               get := fun ix => d.get ((List.range d.shape.length).map fun m2 =>
                 ix.getD ((canonical.map fun dm => dims.indexOf dm).indexOf m2) 0) } := by
      simp [npTranspose, haxes]
    have hshape2 : ((canonical.map fun dm => dims.indexOf dm).map fun i => d.shape.getD i 0)
        = canonical.map fun dm => d.shape.getD (dims.indexOf dm) 0 := by
      rw [List.map_map]; rfl
    have hlen2 : ((canonical.map fun dm => dims.indexOf dm).map fun i => d.shape.getD i 0).length
        = canonical.length := by simp
    refine ⟨{ dims := canonical,
              data := { shape := (canonical.map fun dm => dims.indexOf dm).map fun i => d.shape.getD i 0,
                        get := fun ix => d.get ((List.range d.shape.length).map fun m2 =>
                          ix.getD ((canonical.map fun dm => dims.indexOf dm).indexOf m2) 0) },
              transform := some m }, ?_, rfl, hshape2, ?_⟩
    · simp only [parseResolved]
      rw [if_pos hd, htrans]
      simp [toSpatialImage, hlen2, hm]
    · simp [RasterSchema.validate, RasterSchema.validateSingle]

theorem rasterKindDims_nodup {canonical : List String} (h : canonical ∈ rasterKindDims) :
    canonical.Nodup := by
  simp only [rasterKindDims, List.mem_cons, List.mem_singleton, List.not_mem_nil] at h
  rcases h with h | h | h | h | h <;> first
    | (subst h; decide)
    | exact absurd h (by simp)

/-- C2: for every supported raster kind, an input whose resolved dimension
labels are a list permutation of the canonical dims parses successfully
(both for a raw array with a dims argument and for a labeled array), the
result's dimension order is the canonical order with the shape permuted
accordingly by the transpose, and validate accepts the result; resolved dims
that are not set-equal to the canonical dims make parse fail with the
wrong-dims ValueError. -/
theorem rasterParse_permutation_invariance (canonical : List String)
    (hk : canonical ∈ rasterKindDims) :
    (∀ (dims : List String) (d : NdData), dims.Perm canonical → d.shape.length = dims.length →
      ∃ out : LArr,
        RasterSchema.parse canonical (RasterInput.raw d) (some dims) none = Except.ok out
        ∧ out.dims = canonical
        ∧ out.data.shape = canonical.map (fun dm => d.shape.getD (dims.indexOf dm) 0)
        ∧ RasterSchema.validate canonical (RasterElement.single out) = Except.ok ())
    ∧ (∀ a : LArr, a.dims.Perm canonical → a.data.shape.length = a.dims.length →
      ∃ out : LArr,
        RasterSchema.parse canonical (RasterInput.labeled a) none none = Except.ok out
        ∧ out.dims = canonical
        ∧ out.data.shape = canonical.map (fun dm => a.data.shape.getD (a.dims.indexOf dm) 0)
        ∧ RasterSchema.validate canonical (RasterElement.single out) = Except.ok ())
    ∧ (∀ (dims : List String) (d : NdData), setEqDims dims canonical = false →
        RasterSchema.parse canonical (RasterInput.raw d) (some dims) none =
          Except.error errWrongDims)
    ∧ (∀ a : LArr, setEqDims a.dims canonical = false →
        RasterSchema.parse canonical (RasterInput.labeled a) none none =
          Except.error errWrongDims) := by
  have hnd := rasterKindDims_nodup hk
  refine ⟨?_, ?_, ?_, ?_⟩
  · intro dims d hperm hrank
    have hs := setEqDims_of_perm hperm
    obtain ⟨out, h1, h2, h3, h4⟩ := parseResolved_perm canonical dims d none hnd hperm hrank
    exact ⟨out, by simp [RasterSchema.parse, hs, h1], h2, h3, h4⟩
  · intro a hperm hrank
    have hs := setEqDims_of_perm hperm
    obtain ⟨out, h1, h2, h3, h4⟩ :=
      parseResolved_perm canonical a.dims a.data a.transform hnd hperm hrank
    exact ⟨out, by simp [RasterSchema.parse, hs, h1], h2, h3, h4⟩
  · intro dims d hs
    simp [RasterSchema.parse, hs]
  · intro a hs
    simp [RasterSchema.parse, hs]

/-- Witness for C2 at the Labels2D kind. -/
theorem rasterParse_permutation_invariance_witness :
    (Labels2DModel.dims ∈ rasterKindDims
    ∧ ((∀ (dims : List String) (d : NdData), dims.Perm Labels2DModel.dims →
        d.shape.length = dims.length →
      ∃ out : LArr,
        RasterSchema.parse Labels2DModel.dims (RasterInput.raw d) (some dims) none = Except.ok out
        ∧ out.dims = Labels2DModel.dims
        ∧ out.data.shape = Labels2DModel.dims.map (fun dm => d.shape.getD (dims.indexOf dm) 0)
        ∧ RasterSchema.validate Labels2DModel.dims (RasterElement.single out) = Except.ok ())
    ∧ (∀ a : LArr, a.dims.Perm Labels2DModel.dims → a.data.shape.length = a.dims.length →
      ∃ out : LArr,
        RasterSchema.parse Labels2DModel.dims (RasterInput.labeled a) none none = Except.ok out
        ∧ out.dims = Labels2DModel.dims
        ∧ out.data.shape = Labels2DModel.dims.map (fun dm => a.data.shape.getD (a.dims.indexOf dm) 0)
        ∧ RasterSchema.validate Labels2DModel.dims (RasterElement.single out) = Except.ok ())
    ∧ (∀ (dims : List String) (d : NdData), setEqDims dims Labels2DModel.dims = false →
        RasterSchema.parse Labels2DModel.dims (RasterInput.raw d) (some dims) none =
          Except.error errWrongDims)
    ∧ (∀ a : LArr, setEqDims a.dims Labels2DModel.dims = false →
        RasterSchema.parse Labels2DModel.dims (RasterInput.labeled a) none none =
          Except.error errWrongDims))) :=
  ⟨by decide, rasterParse_permutation_invariance Labels2DModel.dims (by decide)⟩

/-! ## Claim C4 -/

/-- A valid Labels2D level array used in the multiscale examples. -/
def exampleLArr : LArr :=
  { dims := Labels2DModel.dims,
    data := { shape := [2, 2], get := fun _ => 0 },
    transform := some tExample }

/-- A multiscale element whose first level exposes two data variables. -/
def msTwoVars : List MSLevel :=
  [{ key := "scale0", vars := [("image", exampleLArr), ("extra", exampleLArr)] },
   { key := "scale1", vars := [("image", exampleLArr)] }]

/-- A well-formed single-variable multiscale element. -/
def msSingleVar : List MSLevel :=
  [{ key := "scale0", vars := [("image", exampleLArr)] }]

/-- C4 counterexample: the multiscale validate accepts an element whose
scale0 level exposes two data variables, so acceptance does not require
every level to expose exactly one data variable. -/
theorem validateMultiscale_two_variables_counterexample :
    RasterSchema.validate Labels2DModel.dims (RasterElement.multi msTwoVars) = Except.ok () := by
  rfl

theorem validateMultiscale_inv {canonical : List String} {ms : List MSLevel}
    (h : RasterSchema.validate canonical (RasterElement.multi ms) = Except.ok ()) :
    ∃ names n, checkScaleKeys 0 ms = Except.ok ()
      ∧ firstVarNames ms = Except.ok names
      ∧ ¬ 1 < names.dedup.length
      ∧ names.dedup.head? = some n
      ∧ validateLevels canonical n ms = Except.ok () := by
  simp only [RasterSchema.validate] at h
  unfold RasterSchema.validateMultiscale at h
  split at h
  · simp at h
  · rename_i u hck
    split at h
    · simp at h
    · rename_i names hfn
      dsimp only at h
      split at h
      · simp at h
      · rename_i hlen
        split at h
        · simp at h
        · rename_i n hhead
          cases u
          exact ⟨names, n, hck, hfn, hlen, hhead, h⟩

theorem firstVarNames_mem :
    ∀ (ms : List MSLevel) (names : List String), firstVarNames ms = Except.ok names →
      ∀ l ∈ ms, ∃ p rest, l.vars = p :: rest ∧ p.1 ∈ names
  | [], _, _, l, hl => absurd hl (List.not_mem_nil l)
  | m0 :: ms, names, h, l, hl => by
    unfold firstVarNames at h
    cases hv : m0.vars with
    | nil => rw [hv] at h; simp at h
    | cons p rest =>
      rw [hv] at h
      simp only [List.head?] at h
      cases hfn : firstVarNames ms with
      | error e => rw [hfn] at h; simp at h
      | ok ns =>
        rw [hfn] at h
        simp only [Except.ok.injEq] at h
        subst h
        rcases List.mem_cons.mp hl with hE | hMem
        · exact ⟨p, rest, by rw [hE, hv], List.mem_cons_self _ _⟩
        · obtain ⟨p2, rest2, hv2, hm2⟩ := firstVarNames_mem ms ns hfn l hMem
          exact ⟨p2, rest2, hv2, List.mem_cons_of_mem _ hm2⟩

theorem validateLevels_mem {canonical : List String} {n : String} :
    ∀ ms : List MSLevel, validateLevels canonical n ms = Except.ok () →
      ∀ l ∈ ms, ∃ a, l.vars.lookup n = some a
        ∧ RasterSchema.validateSingle canonical a = Except.ok ()
  | [], _, l, hl => absurd hl (List.not_mem_nil l)
  | m0 :: ms, h, l, hl => by
    unfold validateLevels at h
    split at h
    · simp at h
    · rename_i a hlk
      split at h
      · simp at h
      · rename_i u hv
        cases u
        rcases List.mem_cons.mp hl with hE | hMem
        · exact ⟨a, by rw [hE]; exact hlk, hv⟩
        · exact validateLevels_mem ms h l hMem

theorem dedup_le_one_all_eq {names : List String} {n : String}
    (hlen : ¬ 1 < names.dedup.length) (hhead : names.dedup.head? = some n) :
    ∀ x ∈ names, x = n := by
  intro x hx
  have hx2 : x ∈ names.dedup := List.mem_dedup.mpr hx
  have hne : names.dedup ≠ [] := by
    intro e; rw [e] at hhead; simp at hhead
  have hlen1 : names.dedup.length = 1 := by
    have := List.length_pos.mpr hne
    omega
  obtain ⟨y, hy⟩ := List.length_eq_one.mp hlen1
  rw [hy] at hx2 hhead
  simp only [List.mem_singleton] at hx2
  simp only [List.head?, Option.some.injEq] at hhead
  rw [hx2, hhead]

/-- C4 amended: the multiscale validate accepts an element only if its level
keys are exactly scale0..scaleN-1 in order, it has at least one level, every
level has at least one data variable whose first entry carries a name shared
by all levels, and every level's first data variable passes the single-scale
check; data variables beyond the first of a level are not inspected, so
levels need not expose exactly one variable. -/
theorem validateMultiscale_necessary_conditions (canonical : List String) (ms : List MSLevel)
    (h : RasterSchema.validate canonical (RasterElement.multi ms) = Except.ok ()) :
    checkScaleKeys 0 ms = Except.ok ()
    ∧ ms ≠ []
    ∧ ∃ n, ∀ l ∈ ms, ∃ a rest, l.vars = (n, a) :: rest
        ∧ RasterSchema.validateSingle canonical a = Except.ok () := by
  obtain ⟨names, n, hck, hfn, hlen, hhead, hlv⟩ := validateMultiscale_inv h
  refine ⟨hck, ?_, n, ?_⟩
  · intro e
    subst e
    simp only [firstVarNames, Except.ok.injEq] at hfn
    rw [← hfn] at hhead
    simp at hhead
  · intro l hl
    obtain ⟨p, rest, hv, hmem⟩ := firstVarNames_mem ms names hfn l hl
    have hp1 : p.1 = n := dedup_le_one_all_eq hlen hhead p.1 hmem
    obtain ⟨a, hlk, hvs⟩ := validateLevels_mem ms hlv l hl
    have hpeta : p = (n, p.2) := by rw [← hp1]
    rw [hv, hpeta] at hlk
    have hhd : List.lookup n ((n, p.2) :: rest) = some p.2 := by simp [List.lookup]
    rw [hhd] at hlk
    injection hlk with ha
    exact ⟨p.2, rest, by rw [hv, hpeta], ha ▸ hvs⟩

/-- Witness for C4 on a well-formed single-variable multiscale element. -/
theorem validateMultiscale_necessary_conditions_witness :
    (RasterSchema.validate Labels2DModel.dims (RasterElement.multi msSingleVar) = Except.ok ()
    ∧ (checkScaleKeys 0 msSingleVar = Except.ok ()
    ∧ msSingleVar ≠ []
    ∧ ∃ n, ∀ l ∈ msSingleVar, ∃ a rest, l.vars = (n, a) :: rest
        ∧ RasterSchema.validateSingle Labels2DModel.dims a = Except.ok ())) :=
  ⟨by rfl, validateMultiscale_necessary_conditions Labels2DModel.dims msSingleVar (by rfl)⟩

/-! ## Claim C5 -/

/-- C5 counterexample: for the ragged-array entry point with the point tag,
zero rows and a radius of matching (zero) row count, parse does not succeed:
validation trips the first-row access and the call fails with the
out-of-bounds error. -/
theorem shapesParse_empty_points_counterexample :
    ShapesModel.parseRagged 0 0 (some []) none = Except.error ShapesErr.indexError := by
  rfl

/-- C5 amended (restricted to at least one geometry row; the zero-row case
fails on the first-row access of validate, see the counterexample): for each
of the three Shapes parse entry points, point geometries without a radius
fail with the radius ValueError, and with a radius of matching row count
parse succeeds and validate accepts the result. -/
theorem shapesParse_point_radius_contract (n : Nat) (hn : 0 < n) (r : List Int)
    (hr : r.length = n) :
    (ShapesModel.parseRagged 0 n none none = Except.error errRadiusRequired
    ∧ ShapesModel.parseRagged 0 n (some r) none = Except.ok
        { geometry? := some (List.replicate n Geom.point), radius? := some r,
          transform := some tExample }
    ∧ ShapesModel.validate
        { geometry? := some (List.replicate n Geom.point), radius? := some r,
          transform := some tExample } = Except.ok ())
    ∧ (ShapesModel.parseGeoJSON (GeoJSONContent.collection (List.replicate n Geom.point))
        none none = Except.error errRadiusRequired
    ∧ ShapesModel.parseGeoJSON (GeoJSONContent.collection (List.replicate n Geom.point))
        (some r) none = Except.ok
        { geometry? := some (List.replicate n Geom.point), radius? := some r,
          transform := some tExample })
    ∧ (ShapesModel.parseGeoDataFrame
        { geometry? := some (List.replicate n Geom.point), radius? := none, transform := none }
        none = Except.error (ShapesErr.valueError "Column radius not found.")
    ∧ ShapesModel.parseGeoDataFrame
        { geometry? := some (List.replicate n Geom.point), radius? := some r, transform := none }
        none = Except.ok
        { geometry? := some (List.replicate n Geom.point), radius? := some r,
          transform := some tExample }) := by
  obtain ⟨k, rfl⟩ : ∃ k, n = k + 1 := ⟨n - 1, by omega⟩
  refine ⟨⟨?_, ?_, ?_⟩, ⟨?_, ?_⟩, ⟨?_, ?_⟩⟩
  · simp [ShapesModel.parseRagged, from_ragged_array]
  · simp [ShapesModel.parseRagged, from_ragged_array, hr, liftTransform,
      _parse_transformations, mappingNonempty, ShapesModel.validate, List.replicate_succ,
      tExample]
  · simp [ShapesModel.validate, List.replicate_succ]
  · simp [ShapesModel.parseGeoJSON, List.replicate_succ]
  · simp [ShapesModel.parseGeoJSON, List.replicate_succ, hr, liftTransform,
      _parse_transformations, mappingNonempty, ShapesModel.validate, tExample]
  · simp [ShapesModel.parseGeoDataFrame, List.replicate_succ]
  · simp [ShapesModel.parseGeoDataFrame, List.replicate_succ, liftTransform,
      _parse_transformations, mappingNonempty, ShapesModel.validate, tExample]

/-- Witness for C5 with one point row. -/
theorem shapesParse_point_radius_contract_witness :
    (0 < 1 ∧ ([(7 : Int)] : List Int).length = 1
    ∧ ((ShapesModel.parseRagged 0 1 none none = Except.error errRadiusRequired
    ∧ ShapesModel.parseRagged 0 1 (some [(7 : Int)]) none = Except.ok
        { geometry? := some (List.replicate 1 Geom.point), radius? := some [(7 : Int)],
          transform := some tExample }
    ∧ ShapesModel.validate
        { geometry? := some (List.replicate 1 Geom.point), radius? := some [(7 : Int)],
          transform := some tExample } = Except.ok ())
    ∧ (ShapesModel.parseGeoJSON (GeoJSONContent.collection (List.replicate 1 Geom.point))
        none none = Except.error errRadiusRequired
    ∧ ShapesModel.parseGeoJSON (GeoJSONContent.collection (List.replicate 1 Geom.point))
        (some [(7 : Int)]) none = Except.ok
        { geometry? := some (List.replicate 1 Geom.point), radius? := some [(7 : Int)],
          transform := some tExample })
    ∧ (ShapesModel.parseGeoDataFrame
        { geometry? := some (List.replicate 1 Geom.point), radius? := none, transform := none }
        none = Except.error (ShapesErr.valueError "Column radius not found.")
    ∧ ShapesModel.parseGeoDataFrame
        { geometry? := some (List.replicate 1 Geom.point), radius? := some [(7 : Int)],
          transform := none }
        none = Except.ok
        { geometry? := some (List.replicate 1 Geom.point), radius? := some [(7 : Int)],
          transform := some tExample }))) :=
  ⟨by decide, by decide, shapesParse_point_radius_contract 1 (by decide) [(7 : Int)] (by decide)⟩

/-! ## Claim C8 -/

/-- C8 counterexample: validate accepts a GeoDataFrame whose first row is a
polygon while its second row is an unsupported geometry kind, so a frame
with a non-supported row, and a frame mixing geometry families, is not
rejected. -/
theorem shapesValidate_mixed_geometry_counterexample :
    ShapesModel.validate
      { geometry? := some [Geom.polygon, Geom.other], radius? := none,
        transform := some tExample } = Except.ok () := by
  rfl

/-- C8 amended: ShapesModel.validate decides by the first row alone: for a
frame whose geometry column starts with g0, validation succeeds exactly when
g0 is a supported kind, the radius column is present if g0 is a point, and
the transform attribute is present; the rows beyond the first never affect
the verdict. -/
theorem shapesValidate_first_row_decides (d : GeoDF) (g0 : Geom) (rest : List Geom)
    (hg : d.geometry? = some (g0 :: rest)) :
    (ShapesModel.validate d = Except.ok () ↔
      (g0 ≠ Geom.other ∧ (g0 = Geom.point → d.radius?.isSome = true) ∧ d.transform.isSome = true))
    ∧ ∀ rest2 : List Geom,
        ShapesModel.validate d =
        ShapesModel.validate { d with geometry? := some (g0 :: rest2) } := by
  cases d with
  | mk g r t =>
    simp only at hg
    subst hg
    constructor
    · cases r <;> cases t <;> by_cases hp : g0 = Geom.point <;> by_cases ho : g0 = Geom.other <;>
        simp_all [ShapesModel.validate]
    · intro rest2
      rfl

/-- Witness for C8 on a concrete mixed frame. -/
theorem shapesValidate_first_row_decides_witness :
    (({ geometry? := some (Geom.polygon :: [Geom.other]), radius? := none,
        transform := some tExample } : GeoDF).geometry? = some (Geom.polygon :: [Geom.other])
    ∧ ((ShapesModel.validate
        { geometry? := some (Geom.polygon :: [Geom.other]), radius? := none,
          transform := some tExample } = Except.ok () ↔
      (Geom.polygon ≠ Geom.other
        ∧ (Geom.polygon = Geom.point →
            ({ geometry? := some (Geom.polygon :: [Geom.other]), radius? := none,
               transform := some tExample } : GeoDF).radius?.isSome = true)
        ∧ ({ geometry? := some (Geom.polygon :: [Geom.other]), radius? := none,
             transform := some tExample } : GeoDF).transform.isSome = true))
    ∧ ∀ rest2 : List Geom,
        ShapesModel.validate
          { geometry? := some (Geom.polygon :: [Geom.other]), radius? := none,
            transform := some tExample } =
        ShapesModel.validate
          { geometry? := some (Geom.polygon :: rest2), radius? := none,
            transform := some tExample })) :=
  ⟨rfl, shapesValidate_first_row_decides
    { geometry? := some (Geom.polygon :: [Geom.other]), radius? := none,
      transform := some tExample } Geom.polygon [Geom.other] rfl⟩

/-! ## Claim C10 -/

/-- C10: ShapesModel.validate has an undocumented non-emptiness
precondition: it reads the first geometry row unconditionally, so on a frame
with zero rows (geometry column present, transform metadata present) it
fails with the model of the out-of-bounds IndexError rather than succeeding
or raising a KeyError/ValueError; on non-empty frames only the first row's
geometry kind is inspected, so replacing the rows beyond the first never
changes the verdict. -/
theorem shapesValidate_head_precondition :
    (∀ (r : Option (List Int)) (t : MappingToCoordinateSystem),
      ShapesModel.validate { geometry? := some [], radius? := r, transform := some t } =
        Except.error ShapesErr.indexError)
    ∧ ∀ (g0 : Geom) (rest rest2 : List Geom) (r : Option (List Int))
        (t : Option MappingToCoordinateSystem),
        ShapesModel.validate { geometry? := some (g0 :: rest), radius? := r, transform := t } =
        ShapesModel.validate { geometry? := some (g0 :: rest2), radius? := r, transform := t } := by
  exact ⟨fun r t => rfl, fun g0 rest rest2 r t => rfl⟩

/-! ## Claim C3 -/

/-- Example categorical region column used by the table witnesses. -/
def colEx : ObsColumn := { name := "rk", values := ["r1"], categorical := true }

/-- Example table with one categorical region column and no attrs block. -/
def adEx : AnnDataT := { obs := [colEx], uns := none }

/-- C3 counterexample: with a list region, a region_key whose column values
all lie in the region list, and an instance_key, parse still fails when the
table already carries an attrs block (the dual-source guard), so the claimed
success needs the absent-metadata precondition. -/
theorem tableParse_list_with_existing_attrs_counterexample :
    (TableModel.parse
      { obs := [{ name := "rk", values := ["r1"], categorical := true }],
        uns := some { region := none, region_key := none, instance_key := none } }
      (some (RegionVal.list ["r1"])) (some "rk") (some "ik")).1 =
      Except.error errDualSource := by
  rfl

/-- C3 amended (the success case additionally requires that the table does
not already carry an attrs block, which the dual-source guard rejects): for
TableModel.parse with a list region, a missing region_key always fails; a
region_key column containing a value outside the region list always fails;
and on a table without an attrs block, a valid
(region, region_key, instance_key) triple succeeds and the metadata block
afterwards holds exactly the passed triple. -/
theorem tableParse_region_list_contract (l : List String) :
    (∀ (adata : AnnDataT) (ik : Option String),
      ∃ e, (TableModel.parse adata (some (RegionVal.list l)) none ik).1 = Except.error e)
    ∧ (∀ (adata : AnnDataT) (rk : String) (ik : Option String) (col : ObsColumn),
        findColumn adata.obs rk = some col →
        (col.values.all fun v => decide (v ∈ l)) = false →
        ∃ e, (TableModel.parse adata (some (RegionVal.list l)) (some rk) ik).1 =
          Except.error e)
    ∧ (∀ (adata : AnnDataT) (rk ik : String) (col : ObsColumn),
        adata.uns = none → findColumn adata.obs rk = some col →
        (col.values.all fun v => decide (v ∈ l)) = true →
        ∃ out, (TableModel.parse adata (some (RegionVal.list l)) (some rk) (some ik)).1 =
            Except.ok out
          ∧ out.uns = some { region := some (RegionVal.list l),
                             region_key := some rk, instance_key := some ik }) := by
  refine ⟨?_, ?_, ?_⟩
  · intro adata ik
    cases hu : adata.uns with
    | some attr =>
      exact ⟨errDualSource, by cases ik <;> simp [TableModel.parse, tableRegionBranch, hu]⟩
    | none =>
      exact ⟨errRegionKeyRequired, by cases ik <;> simp [TableModel.parse, tableRegionBranch, hu]⟩
  · intro adata rk ik col hc hv
    cases hu : adata.uns with
    | some attr =>
      exact ⟨errDualSource, by cases ik <;> simp [TableModel.parse, tableRegionBranch, hu]⟩
    | none =>
      exact ⟨errRegionValuesMismatch, by cases ik <;> simp [TableModel.parse, tableRegionBranch, hu, hc, hv]⟩
  · intro adata rk ik col hu hc hv
    refine ⟨{ (if col.categorical then adata else coerceCategorical adata rk) with
                uns := some { region := some (RegionVal.list l),
                              region_key := some rk, instance_key := some ik } }, ?_, rfl⟩
    simp [TableModel.parse, tableRegionBranch, hu, hc, hv, tableFinish]

/-- Witness for C3 on a concrete one-column table. -/
theorem tableParse_region_list_contract_witness :
    (adEx.uns = none
    ∧ findColumn adEx.obs "rk" = some colEx
    ∧ (colEx.values.all fun v => decide (v ∈ ["r1"])) = true
    ∧ ∃ out, (TableModel.parse adEx (some (RegionVal.list ["r1"])) (some "rk") (some "ik")).1 =
        Except.ok out
      ∧ out.uns = some { region := some (RegionVal.list ["r1"]),
                         region_key := some "rk", instance_key := some "ik" }) :=
  ⟨rfl, rfl, by decide,
   (tableParse_region_list_contract ["r1"]).2.2 adEx "rk" "ik" colEx rfl rfl (by decide)⟩

/-! ## Claim C6 -/

/-- C6 counterexample: parsing with all region arguments None on a table
without a metadata block succeeds, but the resulting table's metadata block
is present, holding the all-None triple, not absent. -/
theorem tableParse_no_region_metadata_counterexample :
    (TableModel.parse { obs := [], uns := none } none none none).1 =
      Except.ok { obs := [],
                  uns := some { region := none, region_key := none,
                                instance_key := none } }
    ∧ (TableModel.parse { obs := [], uns := none } none none none).2.uns ≠ none :=
  ⟨rfl, by decide⟩

/-- C6 amended: with region, region_key and instance_key all None on a table
whose metadata block is absent, parse succeeds, but the region-linkage
metadata block of the result is present and holds the triple
(None, None, None): models.py writes the resolved triple back
unconditionally. -/
theorem tableParse_no_region_writes_none_triple (adata : AnnDataT) (h : adata.uns = none) :
    TableModel.parse adata none none none =
      (Except.ok { adata with
                   uns := some { region := none, region_key := none,
                                 instance_key := none } },
       { adata with
         uns := some { region := none, region_key := none,
                       instance_key := none } }) := by
  simp [TableModel.parse, tableRegionBranch, h, tableFinish]

/-- Witness for C6 on the empty table. -/
theorem tableParse_no_region_writes_none_triple_witness :
    (({ obs := [], uns := none } : AnnDataT).uns = none
    ∧ TableModel.parse { obs := [], uns := none } none none none =
      (Except.ok { obs := [],
                   uns := some { region := none, region_key := none,
                                 instance_key := none } },
       { obs := [],
         uns := some { region := none, region_key := none,
                       instance_key := none } })) :=
  ⟨rfl, tableParse_no_region_writes_none_triple { obs := [], uns := none } rfl⟩

/-! ## Claim C9 -/

/-- Example table whose region column is not categorical. -/
def adExNonCat : AnnDataT :=
  { obs := [{ name := "rk", values := ["r1"], categorical := false }], uns := none }

/-- C9 counterexample: TableModel.parse raising on a missing instance_key
leaves an observable partial mutation behind: the region_key column of the
caller's table has been coerced to categorical by the time the error is
raised, so the failing parse is not atomic. -/
theorem tableParse_failure_mutates_counterexample :
    (TableModel.parse adExNonCat (some (RegionVal.list ["r1"])) (some "rk") none).1 =
      Except.error errInstanceKeyRequired
    ∧ (TableModel.parse adExNonCat (some (RegionVal.list ["r1"])) (some "rk") none).2 ≠
      adExNonCat
    ∧ (TableModel.parse adExNonCat (some (RegionVal.list ["r1"])) (some "rk") none).2 =
      coerceCategorical adExNonCat "rk" :=
  ⟨rfl, by decide, by decide⟩

theorem tableRegionBranch_state_cases (adata : AnnDataT) (region : Option RegionVal)
    (region_key instance_key : Option String) :
    (tableRegionBranch adata region region_key instance_key).1 =
      Except.ok (tableRegionBranch adata region region_key instance_key).2
    ∨ (tableRegionBranch adata region region_key instance_key).2 = adata
    ∨ ∃ rk, (tableRegionBranch adata region region_key instance_key).2 =
        coerceCategorical adata rk := by
  cases region with
  | none => left; rfl
  | some rv =>
    cases rv with
    | str s =>
      by_cases h1 : region_key.isSome = true
      · right; left; simp [tableRegionBranch, h1]
      · by_cases h2 : instance_key.isNone = true
        · right; left; simp [tableRegionBranch, h1, h2]
        · left; simp [tableRegionBranch, h1, h2, tableFinish]
    | list l =>
      cases region_key with
      | none => right; left; rfl
      | some rk =>
        cases hc : findColumn adata.obs rk with
        | none => right; left; simp [tableRegionBranch, hc]
        | some col =>
          by_cases hv : (col.values.all fun v => decide (v ∈ l)) = false
          · right; left; simp [tableRegionBranch, hc, hv]
          · by_cases hik : instance_key.isNone = true
            · by_cases hcat : col.categorical
              · right; left; simp [tableRegionBranch, hc, hv, hik, hcat]
              · right; right
                exact ⟨rk, by simp [tableRegionBranch, hc, hv, hik, hcat]⟩
            · left; simp [tableRegionBranch, hc, hv, hik, tableFinish]

theorem tableParse_state_cases (adata : AnnDataT) (region : Option RegionVal)
    (region_key instance_key : Option String) :
    (TableModel.parse adata region region_key instance_key).1 =
      Except.ok (TableModel.parse adata region region_key instance_key).2
    ∨ (TableModel.parse adata region region_key instance_key).2 = adata
    ∨ ∃ rk, (TableModel.parse adata region region_key instance_key).2 =
        coerceCategorical adata rk := by
  cases hu : adata.uns with
  | none =>
    have he : TableModel.parse adata region region_key instance_key =
        tableRegionBranch adata region region_key instance_key := by
      simp [TableModel.parse, hu]
    rw [he]
    exact tableRegionBranch_state_cases adata region region_key instance_key
  | some attr =>
    by_cases hn : 0 < (if region.isSome then 1 else 0) + (if region_key.isSome then 1 else 0) +
        (if instance_key.isSome then 1 else 0)
    · have he : TableModel.parse adata region region_key instance_key =
          (Except.error errDualSource, adata) := by
        simp [TableModel.parse, hu, hn]
      rw [he]; right; left; rfl
    · have h0 : ((if region.isSome then 1 else 0) + (if region_key.isSome then 1 else 0) +
          (if instance_key.isSome then 1 else 0)) = 0 := by omega
      have he : TableModel.parse adata region region_key instance_key =
          tableRegionBranch adata attr.region attr.region_key attr.instance_key := by
        simp [TableModel.parse, hu, hn, h0]
      rw [he]
      exact tableRegionBranch_state_cases adata attr.region attr.region_key attr.instance_key

/-- Example frame with an unsupported first geometry, no radius column and
no transform metadata: the GeoDataFrame register passes its parse-level
checks, attaches the default transform, then fails in validate. -/
def gdfOther : GeoDF :=
  { geometry? := some [Geom.other], radius? := none, transform := none }

theorem parseGeoDataFrameST_fst (data : GeoDF) (tr : Option MappingToCoordinateSystem) :
    (ShapesModel.parseGeoDataFrameST data tr).1 = ShapesModel.parseGeoDataFrame data tr := by
  obtain ⟨og, r, t⟩ := data
  cases og with
  | none => rfl
  | some geoms =>
    cases geoms with
    | nil => rfl
    | cons g0 rest =>
      by_cases hc : g0 = Geom.point ∧ r = none
      · simp [ShapesModel.parseGeoDataFrameST, ShapesModel.parseGeoDataFrame, hc]
      · cases hm : liftTransform (_parse_transformations t tr) with
        | error e =>
          simp [ShapesModel.parseGeoDataFrameST, ShapesModel.parseGeoDataFrame, hc, hm]
        | ok m =>
          cases hv : ShapesModel.validate
              { geometry? := some (g0 :: rest), radius? := r, transform := some m } with
          | error e =>
            simp [ShapesModel.parseGeoDataFrameST, ShapesModel.parseGeoDataFrame, hc, hm, hv]
          | ok u =>
            cases u
            simp [ShapesModel.parseGeoDataFrameST, ShapesModel.parseGeoDataFrame, hc, hm, hv]

theorem shapesParseGeoDataFrameST_state_cases (data : GeoDF)
    (tr : Option MappingToCoordinateSystem) :
    (ShapesModel.parseGeoDataFrameST data tr).1 =
      Except.ok (ShapesModel.parseGeoDataFrameST data tr).2
    ∨ (ShapesModel.parseGeoDataFrameST data tr).2 = data
    ∨ ∃ m, (ShapesModel.parseGeoDataFrameST data tr).2 =
        { data with transform := some m } := by
  obtain ⟨og, r, t⟩ := data
  cases og with
  | none => right; left; rfl
  | some geoms =>
    cases geoms with
    | nil => right; left; rfl
    | cons g0 rest =>
      by_cases hc : g0 = Geom.point ∧ r = none
      · right; left; simp [ShapesModel.parseGeoDataFrameST, hc]
      · cases hm : liftTransform (_parse_transformations t tr) with
        | error e => right; left; simp [ShapesModel.parseGeoDataFrameST, hc, hm]
        | ok m =>
          cases hv : ShapesModel.validate
              { geometry? := some (g0 :: rest), radius? := r, transform := some m } with
          | error e =>
            right; right
            exact ⟨m, by simp [ShapesModel.parseGeoDataFrameST, hc, hm, hv]⟩
          | ok u =>
            cases u
            left; simp [ShapesModel.parseGeoDataFrameST, hc, hm, hv]

/-- C9 amended: failing parses are not atomic in general; the observable
mutations of the caller-supplied element are bounded per entry point.  When
TableModel.parse raises, the caller's table is either unchanged or has
exactly the region_key observation column coerced to categorical (models.py
performs the coercion before the missing-instance_key check); when the
GeoDataFrame register of ShapesModel.parse raises, the caller's frame is
either unchanged or has exactly the resolved transform metadata attached
(models.py attaches it in place before validate runs, so a validate failure
leaves it behind). -/
theorem parse_failure_mutation_bound :
    (∀ (adata : AnnDataT) (region : Option RegionVal)
        (region_key instance_key : Option String) (e : String),
      (TableModel.parse adata region region_key instance_key).1 = Except.error e →
      (TableModel.parse adata region region_key instance_key).2 = adata
      ∨ ∃ rk, (TableModel.parse adata region region_key instance_key).2 =
          coerceCategorical adata rk)
    ∧ (∀ (data : GeoDF) (tr : Option MappingToCoordinateSystem) (e : ShapesErr),
      (ShapesModel.parseGeoDataFrameST data tr).1 = Except.error e →
      (ShapesModel.parseGeoDataFrameST data tr).2 = data
      ∨ ∃ m, (ShapesModel.parseGeoDataFrameST data tr).2 =
          { data with transform := some m }) := by
  constructor
  · intro adata region region_key instance_key e h
    rcases tableParse_state_cases adata region region_key instance_key with hp | hA | hC
    · rw [hp] at h; simp at h
    · exact Or.inl hA
    · exact Or.inr hC
  · intro data tr e h
    rcases shapesParseGeoDataFrameST_state_cases data tr with hp | hA | hC
    · rw [hp] at h; simp at h
    · exact Or.inl hA
    · exact Or.inr hC

/-- Witness for C9 at concrete failing inputs of both entry points: the
table parse that coerces then raises, and the frame with an unsupported
geometry whose failing parse leaves the attached transform behind. -/
theorem parse_failure_mutation_bound_witness :
    ((TableModel.parse adExNonCat (some (RegionVal.list ["r1"])) (some "rk") none).1 =
      Except.error errInstanceKeyRequired
    ∧ ((TableModel.parse adExNonCat (some (RegionVal.list ["r1"])) (some "rk") none).2 =
        adExNonCat
      ∨ ∃ rk, (TableModel.parse adExNonCat (some (RegionVal.list ["r1"])) (some "rk") none).2 =
          coerceCategorical adExNonCat rk)
    ∧ (ShapesModel.parseGeoDataFrameST gdfOther none).1 =
      Except.error (ShapesErr.valueError
        "geometry column can only contain Point, Polygon or MultiPolygon shapes.")
    ∧ (ShapesModel.parseGeoDataFrameST gdfOther none).2.transform = some tExample
    ∧ gdfOther.transform = none
    ∧ ((ShapesModel.parseGeoDataFrameST gdfOther none).2 = gdfOther
      ∨ ∃ m, (ShapesModel.parseGeoDataFrameST gdfOther none).2 =
          { gdfOther with transform := some m })) :=
  ⟨rfl,
   parse_failure_mutation_bound.1 adExNonCat (some (RegionVal.list ["r1"])) (some "rk") none
     errInstanceKeyRequired rfl,
   rfl, rfl, rfl,
   parse_failure_mutation_bound.2 gdfOther none
     (ShapesErr.valueError
       "geometry column can only contain Point, Polygon or MultiPolygon shapes.") rfl⟩
